import Mathlib

/-!
Verification of the Lapiòzo Fashion backend (`src/main.py`, `src/schemas.py`).

The code is shallowly embedded: Python dictionaries become association lists
over an inductive `Value` type, the Mongo-backed store becomes an explicit
`DB` structure threaded through the handlers, and HTTP failures become an
explicit error type. Python `float` arithmetic is idealized as `ℚ` (all
constants involved are exactly representable and the claims are about the
arithmetic, not binary rounding). `database.py` is not part of the sources;
its accessors are modelled from the specification and marked as such.
-/

namespace Lapiozo

mutual

/-- A JSON-like value as stored in a document, including the store-native
identifier type (`oid` models `bson.ObjectId`; its identity is an abstract
tag). Nested lists and dicts use the mutual `ValueList`/`ValueDict` types. -/
inductive Value where
  | str : String → Value
  | num : ℚ → Value
  | bool : Bool → Value
  | oid : Nat → Value
  | vlist : ValueList → Value
  | vdict : ValueDict → Value
  | null : Value
deriving DecidableEq

/-- A list of nested values. -/
inductive ValueList where
  | nil : ValueList
  | cons : Value → ValueList → ValueList
deriving DecidableEq

/-- A nested dictionary (string keys, insertion order). -/
inductive ValueDict where
  | dnil : ValueDict
  | dcons : String → Value → ValueDict → ValueDict
deriving DecidableEq

end

/-- Build a nested list value from a Lean list. -/
def ValueList.ofList : List Value → ValueList
  | [] => .nil
  | v :: vs => .cons v (ValueList.ofList vs)

/-- Build a nested dict value from a Lean association list. -/
def ValueDict.ofList : List (String × Value) → ValueDict
  | [] => .dnil
  | (k, v) :: kvs => .dcons k v (ValueDict.ofList kvs)

/-- A top-level document: a Python dict with string keys, in insertion
order. -/
abbrev Doc := List (String × Value)

/-- First value bound to a key, like Python dict lookup. -/
def assocGet {α : Type} : List (String × α) → String → Option α
  | [], _ => Option.none
  | (k', v) :: rest, k => if k' = k then some v else assocGet rest k

/-- Python dict assignment `d[k] = v`: replace in place if the key exists,
otherwise append at the end. -/
def assocSet {α : Type} (d : List (String × α)) (k : String) (v : α) :
    List (String × α) :=
  if d.any (fun kv => kv.1 = k) then
    d.map (fun kv => if kv.1 = k then (k, v) else kv)
  else d ++ [(k, v)]

/-- Python `d.pop(k)`'s effect on the dict: the key is gone. -/
def assocRemove {α : Type} (d : List (String × α)) (k : String) :
    List (String × α) :=
  d.filter (fun kv => kv.1 ≠ k)

/-- Key membership in a dict. -/
def dictContains (d : Doc) (k : String) : Bool := (assocGet d k).isSome

/-- Abstract rendering of a store identifier tag as a string
(`str(ObjectId(...))`; the exact text is irrelevant to the claims). -/
def oidStr (n : Nat) : String := "oid:" ++ toString n

/-- Python `str()` on a document value. Only the identifier and string cases
are ever reached by the routes under verification; composite values get a
fixed abstract rendering. -/
def pyStr : Value → String
  | .str s => s
  | .num q => toString q
  | .bool b => if b then "True" else "False"
  | .oid n => oidStr n
  | .vlist _ => "<list>"
  | .vdict _ => "<dict>"
  | .null => "None"

/-- The body of `serialize`'s for-loop:
`if isinstance(v, ObjectId): out[k] = str(v)`. -/
def stringifyOid : Value → Value
  | .oid n => .str (oidStr n)
  | v => v

/-- Apply `stringifyOid` to every top-level value of a document (the loop in
`serialize`, which rebinds values in place and never changes keys). -/
def mapStringify (d : Doc) : Doc := d.map (fun kv => (kv.1, stringifyOid kv.2))

/-- Function `serialize` from `src/main.py` lines 39–47: copy the document, pop `_id`
into a string field `id` when present, then stringify any remaining
top-level `ObjectId` values. -/
def serialize (doc : Doc) : Doc :=
  let out :=
    match assocGet doc "_id" with
    | some v => assocSet (assocRemove doc "_id") "id" (.str (pyStr v))
    | Option.none => doc
  mapStringify out

/-! ## Store model

`database.py` is imported by `main.py` but is not among the sources; the
store handle `db` and the accessors `create_document` / `get_documents` are
modelled from the specification (§2 "Persistence accessor", §6 "External
collaborator"). -/

/-- Modelled from the spec: the document store reached through the global
handle `db`. `colls` maps collection names to their documents; `nextId`
generates the "unique opaque id assigned by the store on insert"; `name` is
the database's name attribute; `listNamesOk`/`listNamesErr` model whether
the store's list-collection-names call succeeds or throws. -/
structure DB where
  colls : List (String × List Doc)
  nextId : Nat
  name : String
  listNamesOk : Bool
  listNamesErr : String
deriving DecidableEq

/-- Documents currently in a named collection (absent collections are
empty, as in Mongo). -/
def getColl (db : DB) (c : String) : List Doc :=
  (assocGet db.colls c).getD []

/-- Modelled from the spec: `insert_one` on a collection handle — append the
document, with the store-assigned identifier added as its `_id` field, and
step the id generator. Returns the assigned id rendered as a string. -/
def insert_one (db : DB) (c : String) (doc : Doc) : String × DB :=
  let newDoc := assocSet doc "_id" (.oid db.nextId)
  (oidStr db.nextId,
   { db with colls := assocSet db.colls c (getColl db c ++ [newDoc])
             nextId := db.nextId + 1 })

/-- Modelled from the spec: `create_document` from `database.py` — "insert
one document into named collection", returning the new id. -/
def create_document (db : DB) (c : String) (doc : Doc) : String × DB :=
  insert_one db c doc

/-- Mongo `count_documents({})` on a collection handle. -/
def count_documents (db : DB) (c : String) : Nat := (getColl db c).length

/-- Modelled from the spec: Mongo exact-match filter semantics ("exact match
on category, exact match on featured flag") — every key/value pair of the
filter must be present verbatim in the document. -/
def matchesFilter (filt : Doc) (d : Doc) : Bool :=
  filt.all (fun kv => assocGet d kv.1 = some kv.2)

/-- HTTP-level failure of a handler. -/
inductive HError where
  /-- An explicit `HTTPException(status_code, detail)` raised by a handler. -/
  | http : Nat → String → HError
  /-- Pydantic's `RequestValidationError`, rendered by FastAPI as an HTTP
  422 response before the handler body runs. -/
  | validation : String → HError
  /-- An exception thrown by the store layer itself and not caught by the
  handler (spec §7 "StoreOperationError"). -/
  | storeErr : String → HError
deriving DecidableEq

/-- Modelled from the spec: `get_documents` from `database.py` — "query
documents from named collection with filter and limit", reading the global
store handle and returning up to `limit` matching documents. When the
handle is unset the underlying store call throws (spec §7: a
StoreOperationError, distinct from the handlers' explicit
ServiceUnavailable check). -/
def get_documents (odb : Option DB) (coll : String) (filt : Doc)
    (limit : Nat) : Except HError (List Doc) :=
  match odb with
  | Option.none => .error (.storeErr "store handle unset")
  | some db =>
      .ok (((getColl db coll).filter (fun d => matchesFilter filt d)).take limit)

/-- Process-wide state seen by a request: the nullable store handle plus the
presence of the two configuration environment variables reported by
`/test`. -/
structure AppState where
  db : Option DB
  envUrlSet : Bool
  envNameSet : Bool
deriving DecidableEq

/-! ## Order schema (`src/schemas.py`)

`OrderItem.quantity` carries `Field(..., ge=1)` and `Order.total` carries
`Field(..., ge=0)`; `OrderItem.price` is a bare `float` with no constraint. -/

/-- Schema `OrderItem` from `src/schemas.py` lines 32–37. -/
structure OrderItem where
  product_id : String
  title : String
  price : ℚ
  quantity : ℤ
  image : Option String
deriving DecidableEq

/-- Schema `Customer` from `src/schemas.py` lines 40–43. -/
structure Customer where
  name : String
  email : String
  address : Option String
deriving DecidableEq

/-- Schema `Order` from `src/schemas.py` lines 46–54 (after parsing, so the
`status` default "pending" has been applied). -/
structure Order where
  items : List OrderItem
  customer : Customer
  total : ℚ
  status : String
deriving DecidableEq

/-- The value constraints pydantic enforces on one `OrderItem`: only
`quantity ≥ 1` (`price` has no `ge` bound in the source). -/
def validOrderItem (i : OrderItem) : Bool := decide (1 ≤ i.quantity)

/-- The value constraints pydantic enforces on an `Order` payload:
every item's constraints plus `total ≥ 0`. -/
def validOrder (o : Order) : Bool :=
  o.items.all validOrderItem && decide (0 ≤ o.total)

/-- Pydantic `model_dump()` of one `OrderItem`. -/
def dumpItem (i : OrderItem) : Value :=
  .vdict (ValueDict.ofList
    [("product_id", .str i.product_id), ("title", .str i.title),
     ("price", .num i.price), ("quantity", .num (i.quantity : ℚ)),
     ("image", match i.image with | some s => .str s | Option.none => .null)])

/-- Pydantic `model_dump()` of the `Customer`. -/
def dumpCustomer (c : Customer) : Value :=
  .vdict (ValueDict.ofList
    [("name", .str c.name), ("email", .str c.email),
     ("address", match c.address with | some a => .str a | Option.none => .null)])

/-- Dump `order.model_dump()`: the order as a plain document, client-supplied
`total` included. -/
def dumpOrder (o : Order) : Doc :=
  [("items", .vlist (ValueList.ofList (o.items.map dumpItem))),
   ("customer", dumpCustomer o.customer),
   ("total", .num o.total), ("status", .str o.status)]

/-- Python `sum(item.price * item.quantity for item in order.items)`. -/
def itemsTotal (items : List OrderItem) : ℚ :=
  (items.map (fun i => i.price * (i.quantity : ℚ))).sum

/-- Round to the nearest integer, ties to even — Python's `round`. -/
def roundHalfEven (q : ℚ) : ℤ :=
  if q - ⌊q⌋ = 1 / 2 then (if ⌊q⌋ % 2 = 0 then ⌊q⌋ else ⌊q⌋ + 1)
  else round q

/-- Python's `round(x, 2)` (idealized over ℚ). -/
def round2 (q : ℚ) : ℚ := (roundHalfEven (q * 100) : ℚ) / 100

/-! ## Route handlers (`src/main.py`) -/

/-- The filter `list_products` builds from its present parameters
(`src/main.py` lines 59–63). Note the Python truthiness test
`if category:`, which also skips an empty string, while `featured` is
tested with `is not None`. -/
def buildFilter (category : Option String) (featured : Option Bool) : Doc :=
  let filt : Doc := []
  let filt :=
    match category with
    | some c => if c = "" then filt else assocSet filt "category" (.str c)
    | Option.none => filt
  match featured with
  | some f => assocSet filt "featured" (.bool f)
  | Option.none => filt

/-- Handler `list_products` (`src/main.py` lines 55–65): ServiceUnavailable check,
then the filter built from the present parameters, then the store query,
each result serialized. -/
def list_products (s : AppState) (category : Option String)
    (featured : Option Bool) (limit : Nat) : Except HError (List Doc) :=
  match s.db with
  | Option.none => .error (.http 500 "Database not configured")
  | some db =>
      (get_documents (some db) "product" (buildFilter category featured) limit).map
        (fun docs => docs.map serialize)

/-- Handler `featured_products` (`src/main.py` lines 68–71): queries with the fixed
filter `{"featured": True}`. The source has no `db is None` check here; the
global handle is passed to the accessor as-is. -/
def featured_products (s : AppState) (limit : Nat) :
    Except HError (List Doc) :=
  (get_documents s.db "product" [("featured", .bool true)] limit).map
    (fun docs => docs.map serialize)

/-- The body of `create_order` (`src/main.py` lines 74–83): ServiceUnavailable
check, recompute the total server-side, overwrite the dumped payload's
`total` with `round(total, 2)`, persist to the "order" collection, answer
with the new id and the fixed status "received". -/
def create_order (s : AppState) (o : Order) :
    Except HError Doc × AppState :=
  match s.db with
  | Option.none => (.error (.http 500 "Database not configured"), s)
  | some db =>
      let total := itemsTotal o.items
      let data := dumpOrder o
      let data := assocSet data "total" (.num (round2 total))
      let res := create_document db "order" data
      (.ok [("id", .str res.1), ("status", .str "received")],
       { s with db := some res.2 })

/-- The `POST /api/orders` endpoint: FastAPI validates the body against the
`Order` schema before the handler body runs; a constraint violation is a
422 with no state change. -/
def create_order_endpoint (s : AppState) (o : Order) :
    Except HError Doc × AppState :=
  if validOrder o then create_order s o
  else (.error (.validation "value constraint violated"), s)

/-- First sample product of `seed_products` (`src/main.py` lines 130–141). -/
def sampleTrench : Doc :=
  [("title", .str "Silk Trench Coat"),
    ("description", .str "Double-breasted silk trench with mother-of-pearl buttons."),
    ("price", .num 1890),
    ("category", .str "Outerwear"),
    ("brand", .str "Lapiòzo"),
    ("in_stock", .bool true),
    ("images", .vlist (ValueList.ofList
      [.vdict (ValueDict.ofList
        [("url", .str "https://images.unsplash.com/photo-1520975922284-047f014f2c2d"),
         ("alt", .str "Silk trench coat")])])),
    ("featured", .bool true)]

/-- Second sample product (`src/main.py` lines 142–153). -/
def sampleCrewneck : Doc :=
  [("title", .str "Cashmere Crewneck"),
    ("description", .str "Ultra-soft Italian cashmere sweater."),
    ("price", .num 690),
    ("category", .str "Knitwear"),
    ("brand", .str "Lapiòzo"),
    ("in_stock", .bool true),
    ("images", .vlist (ValueList.ofList
      [.vdict (ValueDict.ofList
        [("url", .str "https://images.unsplash.com/photo-1523381210434-271e8be1f52b"),
         ("alt", .str "Cashmere sweater")])])),
    ("featured", .bool true)]

/-- Third sample product (`src/main.py` lines 154–165). -/
def sampleTrousers : Doc :=
  [("title", .str "Signature Tailored Trousers"),
    ("description", .str "High-rise, tapered wool trousers."),
    ("price", .num 520),
    ("category", .str "Pants"),
    ("brand", .str "Lapiòzo"),
    ("in_stock", .bool true),
    ("images", .vlist (ValueList.ofList
      [.vdict (ValueDict.ofList
        [("url", .str "https://images.unsplash.com/photo-1512436991641-6745cdb1723f"),
         ("alt", .str "Tailored trousers")])])),
    ("featured", .bool false)]

/-- Fourth sample product (`src/main.py` lines 166–177). -/
def sampleDress : Doc :=
  [("title", .str "Evening Silk Dress"),
    ("description", .str "Bias-cut silk charmeuse with open back."),
    ("price", .num 2290),
    ("category", .str "Dresses"),
    ("brand", .str "Lapiòzo"),
    ("in_stock", .bool true),
    ("images", .vlist (ValueList.ofList
      [.vdict (ValueDict.ofList
        [("url", .str "https://images.unsplash.com/photo-1503341455253-b2e723bb3dbb"),
         ("alt", .str "Silk dress")])])),
    ("featured", .bool true)]

/-- The `samples` list of `seed_products` (`src/main.py` lines 129–178). -/
def sampleProducts : List Doc :=
  [sampleTrench, sampleCrewneck, sampleTrousers, sampleDress]

/-- Handler `seed_products` (`src/main.py` lines 121–185): ServiceUnavailable check;
if the product collection already holds a document, answer `inserted=0`
without touching the store; otherwise insert the four samples one by one,
counting them, and answer with the count. -/
def seed_products (s : AppState) : Except HError Doc × AppState :=
  match s.db with
  | Option.none => (.error (.http 500 "Database not configured"), s)
  | some db =>
      if 0 < count_documents db "product" then
        (.ok [("inserted", .num 0)], s)
      else
        let fin := sampleProducts.foldl
          (fun acc d => ((insert_one acc.1 "product" d).2, acc.2 + 1))
          (db, (0 : ℚ))
        (.ok [("inserted", .num fin.2)], { s with db := some fin.1 })

/-- The store's list-collection-names call, which can throw
(`db.list_collection_names()` inside `/test`'s inner `try`). -/
def list_collection_names (db : DB) : Except String (List String) :=
  if db.listNamesOk then .ok (db.colls.map (fun kv => kv.1))
  else .error db.listNamesErr

/-- Handler `test_database` (`src/main.py` lines 86–117): build the diagnostic body,
upgrading fields as probes succeed; both the handle probe and the
list-collections probe are wrapped in try/except, so every failure only
rewrites the `database` status string. The `database_url`/`database_name`
fields are finally overwritten with the environment-variable presence
report. -/
def test_database (s : AppState) : Doc :=
  let response : Doc :=
    [("backend", .str "✅ Running"),
     ("database", .str "❌ Not Available"),
     ("database_url", .null),
     ("database_name", .null),
     ("connection_status", .str "Not Connected"),
     ("collections", .vlist .nil)]
  let response :=
    match s.db with
    | some db =>
        let response := assocSet response "database" (.str "✅ Available")
        let response := assocSet response "database_url" (.str "✅ Configured")
        let response := assocSet response "database_name" (.str db.name)
        let response := assocSet response "connection_status" (.str "Connected")
        match list_collection_names db with
        | .ok cols =>
            let response := assocSet response "collections"
              (.vlist (ValueList.ofList ((cols.take 10).map Value.str)))
            assocSet response "database" (.str "✅ Connected & Working")
        | .error e =>
            assocSet response "database"
              (.str ("⚠️  Connected but Error: " ++ e.take 50))
    | Option.none =>
        assocSet response "database" (.str "⚠️  Available but not initialized")
  let response := assocSet response "database_url"
    (.str (if s.envUrlSet then "✅ Set" else "❌ Not Set"))
  assocSet response "database_name"
    (.str (if s.envNameSet then "✅ Set" else "❌ Not Set"))

/-- The `GET /test` endpoint: `test_database` is total, so the route always
answers 200 with the diagnostic body. -/
def test_endpoint (s : AppState) : Except HError Doc := .ok (test_database s)

end Lapiozo

deriving instance DecidableEq for Except

namespace Lapiozo

/-! ## Dictionary lemmas -/

theorem assocGet_map_replace {α : Type} (d : List (String × α)) (k : String)
    (v : α) (h : d.any (fun kv => kv.1 = k) = true) :
    assocGet (d.map (fun kv => if kv.1 = k then (k, v) else kv)) k = some v := by
  induction d with
  | nil => simp at h
  | cons kv rest ih =>
      obtain ⟨k1, v1⟩ := kv
      rw [List.map_cons]
      by_cases hk : k1 = k
      · rw [if_pos hk]
        simp [assocGet]
      · rw [if_neg hk]
        have h' : rest.any (fun kv => kv.1 = k) = true := by
          simp only [List.any_cons, Bool.or_eq_true, decide_eq_true_eq] at h
          exact h.resolve_left hk
        simp [assocGet, hk, ih h']

theorem assocGet_append_last {α : Type} (d : List (String × α)) (k : String)
    (v : α) (h : ∀ kv ∈ d, kv.1 ≠ k) :
    assocGet (d ++ [(k, v)]) k = some v := by
  induction d with
  | nil => simp [assocGet]
  | cons kv rest ih =>
      obtain ⟨k1, v1⟩ := kv
      have hk : k1 ≠ k := h (k1, v1) (List.mem_cons_self _ rest)
      simp only [List.cons_append, assocGet, if_neg hk]
      exact ih (fun kv' hm => h kv' (List.mem_cons_of_mem _ hm))

theorem assocGet_set_self {α : Type} (d : List (String × α)) (k : String)
    (v : α) : assocGet (assocSet d k v) k = some v := by
  unfold assocSet
  split
  · next h => exact assocGet_map_replace d k v h
  · next h =>
      refine assocGet_append_last d k v ?_
      intro kv hm hk
      exact h (List.any_eq_true.mpr ⟨kv, hm, by simp [hk]⟩)

theorem assocGet_map_replace_ne {α : Type} (d : List (String × α))
    (k k' : String) (v : α) (h : k' ≠ k) :
    assocGet (d.map (fun kv => if kv.1 = k then (k, v) else kv)) k'
      = assocGet d k' := by
  induction d with
  | nil => rfl
  | cons kv rest ih =>
      obtain ⟨k1, v1⟩ := kv
      rw [List.map_cons]
      by_cases hk : k1 = k
      · rw [if_pos hk]
        subst hk
        simp [assocGet, Ne.symm h, ih]
      · rw [if_neg hk]
        simp [assocGet, ih]

theorem assocGet_append_single_ne {α : Type} (d : List (String × α))
    (k k' : String) (v : α) (h : k' ≠ k) :
    assocGet (d ++ [(k, v)]) k' = assocGet d k' := by
  induction d with
  | nil => simp [assocGet, Ne.symm h]
  | cons kv rest ih =>
      obtain ⟨k1, v1⟩ := kv
      by_cases hk : k1 = k'
      · subst hk
        simp [assocGet]
      · simp [assocGet, hk, ih]

theorem assocGet_set_ne {α : Type} (d : List (String × α)) (k k' : String)
    (v : α) (h : k' ≠ k) : assocGet (assocSet d k v) k' = assocGet d k' := by
  unfold assocSet
  split
  · exact assocGet_map_replace_ne d k k' v h
  · exact assocGet_append_single_ne d k k' v h

theorem assocGet_remove_self {α : Type} (d : List (String × α)) (k : String) :
    assocGet (assocRemove d k) k = Option.none := by
  induction d with
  | nil => rfl
  | cons kv rest ih =>
      obtain ⟨k1, v1⟩ := kv
      by_cases hk : k1 = k
      · subst hk
        simpa [assocRemove] using ih
      · simpa [assocRemove, assocGet, hk] using ih

theorem assocGet_remove_ne {α : Type} (d : List (String × α)) (k k' : String)
    (h : k' ≠ k) : assocGet (assocRemove d k) k' = assocGet d k' := by
  induction d with
  | nil => rfl
  | cons kv rest ih =>
      obtain ⟨k1, v1⟩ := kv
      by_cases hk : k1 = k
      · subst hk
        simpa [assocRemove, assocGet, Ne.symm h] using ih
      · by_cases hk' : k1 = k'
        · subst hk'
          simp only [assocRemove, List.filter_cons]
          rw [if_pos (by simp [hk])]
          simp [assocGet, assocRemove, ih]
        · simpa [assocRemove, assocGet, hk, hk'] using ih

theorem assocGet_map_values {α β : Type} (d : List (String × α)) (f : α → β)
    (k : String) :
    assocGet (d.map (fun kv => (kv.1, f kv.2))) k = (assocGet d k).map f := by
  induction d with
  | nil => rfl
  | cons kv rest ih =>
      by_cases hk : kv.1 = k
      · simp [assocGet, hk]
      · simpa [assocGet, hk] using ih

/-! ## Serialization lemmas -/

theorem stringifyOid_idem (v : Value) :
    stringifyOid (stringifyOid v) = stringifyOid v := by
  cases v <;> rfl

theorem mapStringify_get (d : Doc) (k : String) :
    assocGet (mapStringify d) k = (assocGet d k).map stringifyOid :=
  assocGet_map_values d stringifyOid k

theorem mapStringify_idem (d : Doc) :
    mapStringify (mapStringify d) = mapStringify d := by
  unfold mapStringify
  rw [List.map_map]
  refine List.map_congr_left ?_
  intro kv _
  simp [Function.comp, stringifyOid_idem]

/-- After `serialize` no document retains a field named `_id`. -/
theorem serialize_no_underscore_id (d : Doc) :
    assocGet (serialize d) "_id" = Option.none := by
  unfold serialize
  cases hid : assocGet d "_id" with
  | none => simp [mapStringify_get, hid]
  | some v =>
      simp only [mapStringify_get]
      rw [assocGet_set_ne _ _ _ _ (by decide)]
      rw [assocGet_remove_self]
      rfl

/-- Every field other than `_id` and `id` survives `serialize` with only the
identifier-stringification applied to its value. -/
theorem serialize_get_ne (d : Doc) (k : String) (h1 : k ≠ "id")
    (h2 : k ≠ "_id") :
    assocGet (serialize d) k = (assocGet d k).map stringifyOid := by
  unfold serialize
  cases hid : assocGet d "_id" with
  | none => simp [mapStringify_get]
  | some v =>
      simp only [mapStringify_get]
      rw [assocGet_set_ne _ _ _ _ h1, assocGet_remove_ne _ _ _ h2]

/-! ## Claims about serialization -/

/-- C9 (amended): for every document containing an `_id` field, `serialize`
yields a string-valued `id` field, drops `_id`, stringifies every other
top-level identifier-typed value, and preserves every other top-level field
whose key is neither `_id` nor `id`; a pre-existing `id` field is
overwritten (see the counterexample). -/
theorem C9_serialize_contract (d : Doc) (h : dictContains d "_id" = true) :
    (∃ s, assocGet (serialize d) "id" = some (Value.str s)) ∧
    assocGet (serialize d) "_id" = Option.none ∧
    (∀ k n, k ≠ "_id" → k ≠ "id" → assocGet d k = some (Value.oid n) →
      assocGet (serialize d) k = some (Value.str (oidStr n))) ∧
    (∀ k v, k ≠ "_id" → k ≠ "id" → stringifyOid v = v →
      assocGet d k = some v → assocGet (serialize d) k = some v) := by
  refine ⟨?_, serialize_no_underscore_id d, ?_, ?_⟩
  · unfold dictContains at h
    cases hid : assocGet d "_id" with
    | none => rw [hid] at h; simp at h
    | some v =>
        refine ⟨pyStr v, ?_⟩
        unfold serialize
        rw [hid]
        simp only [mapStringify_get]
        rw [assocGet_set_self]
        rfl
  · intro k n hk1 hk2 hget
    rw [serialize_get_ne d k hk2 hk1, hget]
    rfl
  · intro k v hk1 hk2 hfix hget
    rw [serialize_get_ne d k hk2 hk1, hget]
    simp [hfix]

/-- C9 witness: the amended contract evaluated on a concrete document. -/
theorem C9_serialize_contract_witness :
    dictContains [("_id", Value.oid 4), ("owner", Value.oid 9),
      ("cat", Value.str "a")] "_id" = true ∧
    ((∃ s, assocGet (serialize [("_id", Value.oid 4), ("owner", Value.oid 9),
        ("cat", Value.str "a")]) "id" = some (Value.str s)) ∧
     assocGet (serialize [("_id", Value.oid 4), ("owner", Value.oid 9),
       ("cat", Value.str "a")]) "_id" = Option.none ∧
     (∀ k n, k ≠ "_id" → k ≠ "id" →
       assocGet [("_id", Value.oid 4), ("owner", Value.oid 9),
         ("cat", Value.str "a")] k = some (Value.oid n) →
       assocGet (serialize [("_id", Value.oid 4), ("owner", Value.oid 9),
         ("cat", Value.str "a")]) k = some (Value.str (oidStr n))) ∧
     (∀ k v, k ≠ "_id" → k ≠ "id" → stringifyOid v = v →
       assocGet [("_id", Value.oid 4), ("owner", Value.oid 9),
         ("cat", Value.str "a")] k = some v →
       assocGet (serialize [("_id", Value.oid 4), ("owner", Value.oid 9),
         ("cat", Value.str "a")]) k = some v)) :=
  ⟨by decide, C9_serialize_contract _ (by decide)⟩

/-- C9 counterexample: the claim as stated is false — a document carrying
both `_id` and a pre-existing `id` field loses the original `id` value
(`out["id"] = str(out.pop("_id"))` overwrites it), so not every top-level
field other than `_id` is preserved. -/
theorem C9_counterexample :
    dictContains [("_id", Value.oid 7), ("id", Value.str "keep"),
      ("x", Value.str "y")] "_id" = true ∧
    assocGet [("_id", Value.oid 7), ("id", Value.str "keep"),
      ("x", Value.str "y")] "id" = some (Value.str "keep") ∧
    stringifyOid (Value.str "keep") = Value.str "keep" ∧
    assocGet (serialize [("_id", Value.oid 7), ("id", Value.str "keep"),
      ("x", Value.str "y")]) "id" ≠ some (Value.str "keep") := by
  decide

/-- C10: serialization is idempotent — a second pass finds no `_id` field
and no identifier-typed top-level value left to rewrite. -/
theorem C10_serialize_idempotent (d : Doc) :
    serialize (serialize d) = serialize d := by
  have h1 : serialize (serialize d) = mapStringify (serialize d) := by
    rw [serialize, serialize_no_underscore_id d]
  rw [h1]
  unfold serialize
  cases assocGet d "_id" <;> simp [mapStringify_idem]

/-! ## Claims about the handlers -/

/-- C3 (amended): `list_products`, the `create_order` handler body and
`seed_products` check the store handle first and fail with the
ServiceUnavailable-class error (HTTP 500, "Database not configured")
before any store query, leaving the state unchanged; `featured_products`
performs no such check (see the counterexample). -/
theorem C3_handlers_fail_fast (u n : Bool) (cat : Option String)
    (feat : Option Bool) (lim : Nat) (o : Order) :
    list_products ⟨Option.none, u, n⟩ cat feat lim
      = .error (.http 500 "Database not configured") ∧
    create_order ⟨Option.none, u, n⟩ o
      = (.error (.http 500 "Database not configured"), ⟨Option.none, u, n⟩) ∧
    seed_products ⟨Option.none, u, n⟩
      = (.error (.http 500 "Database not configured"), ⟨Option.none, u, n⟩) :=
  ⟨rfl, rfl, rfl⟩

/-- C3 counterexample: with the store handle unset, `featured_products`
does not fail with the ServiceUnavailable error — the source has no
`db is None` check in that handler, so the store call itself is attempted
(and throws a store-layer error instead). -/
theorem C3_counterexample :
    featured_products ⟨Option.none, false, false⟩ 8
        ≠ .error (.http 500 "Database not configured") ∧
    featured_products ⟨Option.none, false, false⟩ 8
        = .error (.storeErr "store handle unset") :=
  ⟨by decide, rfl⟩

/-- C4 (amended): whenever the store handle is set, `featured_products`
produces exactly the result of `list_products` with featured=true, no
category and the same limit — same documents, same serialization, same
error behaviour; with the handle unset the two differ (see the
counterexample). -/
theorem C4_featured_refines_list (db : DB) (u n : Bool) (lim : Nat) :
    featured_products ⟨some db, u, n⟩ lim
      = list_products ⟨some db, u, n⟩ Option.none (some true) lim := rfl

/-- C4 counterexample: with the store handle unset the two endpoints
disagree — `list_products` fails fast with the ServiceUnavailable error
while `featured_products` reaches the store call. -/
theorem C4_counterexample :
    featured_products ⟨Option.none, false, false⟩ 8
      ≠ list_products ⟨Option.none, false, false⟩ Option.none (some true) 8 := by
  decide

/-- C7: seeding a non-empty product collection is a no-op: the handler
answers inserted=0 and the whole state — every stored document included —
is unchanged. -/
theorem C7_seed_nonempty_noop (s : AppState) (db : DB) (hdb : s.db = some db)
    (h : getColl db "product" ≠ []) :
    seed_products s = (.ok [("inserted", .num 0)], s) := by
  have hpos : 0 < count_documents db "product" :=
    List.length_pos.mpr h
  unfold seed_products
  rw [hdb]
  exact if_pos hpos

/-- C7 witness: seeding a concrete one-product store changes nothing. -/
theorem C7_seed_nonempty_noop_witness :
    seed_products ⟨some ⟨[("product", [[("title", Value.str "X")]])], 3, "shop",
        true, ""⟩, true, false⟩
      = (.ok [("inserted", .num 0)],
         ⟨some ⟨[("product", [[("title", Value.str "X")]])], 3, "shop",
            true, ""⟩, true, false⟩) :=
  C7_seed_nonempty_noop _ _ rfl (by decide)

/-- C8: `/test` always answers 200: for every application state — the
store handle being entirely absent and the list-collection-names call
throwing included — the endpoint returns an `ok` diagnostic body (whose
`backend` field always reads "✅ Running"), never an HTTP error. -/
theorem C8_test_always_ok (s : AppState) :
    ∃ body, test_endpoint s = .ok body ∧
      assocGet body "backend" = some (.str "✅ Running") := by
  refine ⟨test_database s, rfl, ?_⟩
  obtain ⟨odb, u, n⟩ := s
  cases odb with
  | none => rfl
  | some db =>
      obtain ⟨colls, nid, nm, lok, lerr⟩ := db
      cases lok <;> rfl

/-- Inserting into a collection appends the document, `_id` set to the
store-assigned identifier. -/
theorem getColl_insert_one (db : DB) (c : String) (doc : Doc) :
    getColl (insert_one db c doc).2 c
      = getColl db c ++ [assocSet doc "_id" (.oid db.nextId)] := by
  unfold insert_one getColl
  simp [assocGet_set_self]

/-- C1: for every valid order payload accepted by `create_order`, the
persisted order document's `total` field is the server-side
`round(Σ item.price · item.quantity, 2)` — the client-supplied total never
reaches the store. -/
theorem C1_create_order_total (db : DB) (u n : Bool) (o : Order)
    (hv : validOrder o = true) :
    ∃ body db',
      create_order_endpoint ⟨some db, u, n⟩ o = (.ok body, ⟨some db', u, n⟩) ∧
      ∃ d, getColl db' "order" = getColl db "order" ++ [d] ∧
        assocGet d "total" = some (.num (round2 (itemsTotal o.items))) := by
  refine ⟨[("id", .str (oidStr db.nextId)), ("status", .str "received")],
    (insert_one db "order"
      (assocSet (dumpOrder o) "total" (.num (round2 (itemsTotal o.items))))).2,
    ?_, ?_⟩
  · unfold create_order_endpoint
    rw [if_pos hv]
    rfl
  · refine ⟨_, getColl_insert_one db "order" _, ?_⟩
    rw [assocGet_set_ne _ _ _ _ (by decide)]
    exact assocGet_set_self _ _ _

/-- Rounding `round(x, 2)` fixes every integer. -/
theorem round2_intCast (z : ℤ) : round2 ((z : ℚ)) = (z : ℚ) := by
  have h : ((z : ℚ) * 100) = (((z * 100 : ℤ) : ℚ)) := by push_cast; ring
  unfold round2 roundHalfEven
  rw [h, Int.floor_intCast]
  rw [if_neg (by push_cast; norm_num)]
  rw [round_intCast]
  push_cast
  ring

/-- The order payload of the spec's worked example: two items 10×2 and 5×1,
client-supplied total 0. -/
def exampleOrder : Order :=
  ⟨[⟨"p1", "A", 10, 2, Option.none⟩, ⟨"p2", "B", 5, 1, Option.none⟩],
   ⟨"Ada", "ada@example.com", Option.none⟩, 0, "pending"⟩

/-- C1 witness: the spec's example — client total 0, persisted total 25. -/
theorem C1_create_order_total_witness :
    validOrder exampleOrder = true ∧
    round2 (itemsTotal exampleOrder.items) = 25 ∧
    (∃ body db',
      create_order_endpoint ⟨some ⟨[], 0, "shop", true, ""⟩, true, true⟩
          exampleOrder = (.ok body, ⟨some db', true, true⟩) ∧
      ∃ d, getColl db' "order" = getColl ⟨[], 0, "shop", true, ""⟩ "order" ++ [d] ∧
        assocGet d "total" = some (.num (round2 (itemsTotal exampleOrder.items)))) := by
  refine ⟨by decide, ?_, C1_create_order_total _ true true exampleOrder (by decide)⟩
  have h25 : itemsTotal exampleOrder.items = ((25 : ℤ) : ℚ) := by
    norm_num [itemsTotal, exampleOrder]
  rw [h25, round2_intCast]
  norm_num

/-- C2 (amended): a payload in which some item has quantity 0 violates the
schema's `ge=1` bound and is rejected as a validation error (HTTP 422)
before persistence, the state — hence the order collection — unchanged. An
item price of −1, however, is NOT rejected: `OrderItem.price` carries no
lower bound in `src/schemas.py`, so such a payload passes validation and
is persisted (see the counterexample). -/
theorem C2_quantity_zero_rejected (s : AppState) (o : Order)
    (h : ∃ i ∈ o.items, i.quantity = 0) :
    create_order_endpoint s o
      = (.error (.validation "value constraint violated"), s) := by
  have hv : ¬ (validOrder o = true) := by
    intro hvt
    obtain ⟨i, hm, hq⟩ := h
    have hall := (Bool.and_eq_true _ _ |>.mp hvt).1
    rw [List.all_eq_true] at hall
    have hi := hall i hm
    unfold validOrderItem at hi
    rw [hq] at hi
    exact absurd (of_decide_eq_true hi) (by norm_num)
  unfold create_order_endpoint
  rw [if_neg hv]

/-- An order payload with one item of quantity 0. -/
def quantityZeroOrder : Order :=
  ⟨[⟨"p1", "A", 10, 0, Option.none⟩],
   ⟨"Ada", "ada@example.com", Option.none⟩, 0, "pending"⟩

/-- C2 witness: the quantity-0 payload is rejected with the order
collection untouched. -/
theorem C2_quantity_zero_rejected_witness :
    (∃ i ∈ quantityZeroOrder.items, i.quantity = 0) ∧
    create_order_endpoint ⟨some ⟨[], 5, "shop", true, ""⟩, true, true⟩
        quantityZeroOrder
      = (.error (.validation "value constraint violated"),
         ⟨some ⟨[], 5, "shop", true, ""⟩, true, true⟩) :=
  ⟨by decide, C2_quantity_zero_rejected _ _ (by decide)⟩

/-- An order payload with an item priced −1 (quantity 1, client total 0). -/
def negPriceOrder : Order :=
  ⟨[⟨"p1", "B", -1, 1, Option.none⟩],
   ⟨"Ada", "ada@example.com", Option.none⟩, 0, "pending"⟩

/-- C2 counterexample: the claim as stated is false — a payload whose item
has price −1 passes schema validation (no bound on `OrderItem.price`), is
accepted by the endpoint and is persisted into the order collection. -/
theorem C2_counterexample :
    (∃ i ∈ negPriceOrder.items, i.price = -1) ∧
    validOrder negPriceOrder = true ∧
    (create_order_endpoint ⟨some ⟨[], 0, "shop", true, ""⟩, true, true⟩
        negPriceOrder).1.isOk = true ∧
    (∃ db', (create_order_endpoint ⟨some ⟨[], 0, "shop", true, ""⟩, true, true⟩
        negPriceOrder).2.db = some db' ∧ (getColl db' "order").length = 1) := by
  refine ⟨by decide, by decide, by decide, ⟨_, rfl, by decide⟩⟩

/-- A document matching a filter carries each filter pair verbatim. -/
theorem matchesFilter_mem (filt d : Doc) (h : matchesFilter filt d = true)
    (k : String) (v : Value) (hm : (k, v) ∈ filt) :
    assocGet d k = some v := by
  unfold matchesFilter at h
  rw [List.all_eq_true] at h
  exact of_decide_eq_true (h (k, v) hm)

/-- A present, non-empty category parameter lands in the filter. -/
theorem buildFilter_category_mem (c : String) (hc : c ≠ "")
    (feat : Option Bool) :
    ("category", Value.str c) ∈ buildFilter (some c) feat := by
  cases feat with
  | none => simp [buildFilter, assocSet, hc]
  | some b => simp [buildFilter, assocSet, hc]

/-- A present featured parameter lands in the filter. -/
theorem buildFilter_featured_mem (b : Bool) (cat : Option String) :
    ("featured", Value.bool b) ∈ buildFilter cat (some b) := by
  cases cat with
  | none => simp [buildFilter, assocSet]
  | some c => by_cases hc : c = "" <;> simp [buildFilter, assocSet, hc]

/-- C5 (amended): with the store handle set, every product returned by
`list_products` matches the present filters — category equality whenever
the category parameter is present AND non-empty, featured equality
whenever the featured parameter is present — and at most `limit` products
are returned. A present-but-empty category string applies no filter at
all: Python's `if category:` is a truthiness test (see the
counterexample). -/
theorem C5_filter_sound (db : DB) (u n : Bool) (cat : Option String)
    (feat : Option Bool) (lim : Nat) (docs : List Doc)
    (h : list_products ⟨some db, u, n⟩ cat feat lim = .ok docs) :
    docs.length ≤ lim ∧
    ∀ d ∈ docs,
      (∀ c, cat = some c → c ≠ "" → assocGet d "category" = some (.str c)) ∧
      (∀ b, feat = some b → assocGet d "featured" = some (.bool b)) := by
  have hred : list_products ⟨some db, u, n⟩ cat feat lim
      = .ok ((((getColl db "product").filter
          (fun d => matchesFilter (buildFilter cat feat) d)).take lim).map
            serialize) := rfl
  rw [hred] at h
  rw [Except.ok.injEq] at h
  subst h
  constructor
  · rw [List.length_map]
    exact List.length_take_le _ _
  · intro d hd
    rw [List.mem_map] at hd
    obtain ⟨d0, hd0, rfl⟩ := hd
    have hd0f : d0 ∈ (getColl db "product").filter
        (fun d => matchesFilter (buildFilter cat feat) d) :=
      List.take_subset _ _ hd0
    have hmatch : matchesFilter (buildFilter cat feat) d0 = true :=
      (List.mem_filter.mp hd0f).2
    constructor
    · rintro c rfl hc
      have hget : assocGet d0 "category" = some (.str c) :=
        matchesFilter_mem _ _ hmatch _ _ (buildFilter_category_mem c hc feat)
      rw [serialize_get_ne d0 _ (by decide) (by decide), hget]
      rfl
    · rintro b rfl
      have hget : assocGet d0 "featured" = some (.bool b) :=
        matchesFilter_mem _ _ hmatch _ _ (buildFilter_featured_mem b cat)
      rw [serialize_get_ne d0 _ (by decide) (by decide), hget]
      rfl

/-- A one-product store for exercising the listing filter. -/
def listingDB : DB :=
  ⟨[("product", [[("_id", .oid 0), ("title", .str "Cashmere Crewneck"),
     ("category", .str "Knitwear"), ("featured", .bool true)]])],
   1, "shop", true, ""⟩

/-- What `list_products` answers on `listingDB` for category "Knitwear",
featured true, limit 5. -/
def listingDocs : List Doc :=
  [[("title", .str "Cashmere Crewneck"), ("category", .str "Knitwear"),
    ("featured", .bool true), ("id", .str (oidStr 0))]]

/-- C5 witness: the amended filter contract, evaluated on `listingDB`. -/
theorem C5_filter_sound_witness :
    (list_products ⟨some listingDB, true, true⟩ (some "Knitwear") (some true) 5
      = .ok listingDocs) ∧
    (listingDocs.length ≤ 5 ∧
     ∀ d ∈ listingDocs,
       (∀ c, (some "Knitwear" : Option String) = some c → c ≠ "" →
         assocGet d "category" = some (.str c)) ∧
       (∀ b, (some true : Option Bool) = some b →
         assocGet d "featured" = some (.bool b))) :=
  ⟨by decide, C5_filter_sound listingDB true true _ _ 5 listingDocs (by decide)⟩

/-- C5 counterexample: the claim as stated is false for a present-but-empty
category parameter — `if category:` skips the empty string, so no category
filter is applied and a product of a different category is returned. -/
theorem C5_counterexample :
    list_products ⟨some listingDB, true, true⟩ (some "") Option.none 50
      = .ok listingDocs ∧
    (some "" : Option String) = some "" ∧
    assocGet listingDocs[0] "category" ≠ some (.str "") := by
  refine ⟨by decide, rfl, by decide⟩

/-- Setting `_id` on insert does not disturb the `title` field. -/
theorem assocGet_setId_title (d : Doc) (v : Value) :
    assocGet (assocSet d "_id" v) "title" = assocGet d "title" :=
  assocGet_set_ne d "_id" "title" v (by decide)

/-- Setting `_id` on insert does not disturb the `price` field. -/
theorem assocGet_setId_price (d : Doc) (v : Value) :
    assocGet (assocSet d "_id" v) "price" = assocGet d "price" :=
  assocGet_set_ne d "_id" "price" v (by decide)

/-- Setting `_id` on insert does not disturb the `featured` field. -/
theorem assocGet_setId_featured (d : Doc) (v : Value) :
    assocGet (assocSet d "_id" v) "featured" = assocGet d "featured" :=
  assocGet_set_ne d "_id" "featured" v (by decide)

/-- C6: seeding an empty product collection inserts exactly the four
sample documents — titles "Silk Trench Coat" / "Cashmere Crewneck" /
"Signature Tailored Trousers" / "Evening Silk Dress", prices 1890 / 690 /
520 / 2290, featured true / true / false / true, in that order — and
answers inserted=4. -/
theorem C6_seed_empty_inserts_four (db : DB) (u n : Bool)
    (h : getColl db "product" = []) :
    ∃ db', seed_products ⟨some db, u, n⟩
        = (.ok [("inserted", .num 4)], ⟨some db', u, n⟩) ∧
      (getColl db' "product").map
          (fun d => (assocGet d "title", assocGet d "price",
                     assocGet d "featured"))
        = [(some (.str "Silk Trench Coat"), some (.num 1890),
              some (.bool true)),
           (some (.str "Cashmere Crewneck"), some (.num 690),
              some (.bool true)),
           (some (.str "Signature Tailored Trousers"), some (.num 520),
              some (.bool false)),
           (some (.str "Evening Silk Dress"), some (.num 2290),
              some (.bool true))] ∧
      (getColl db' "product").length = 4 := by
  have hcnt : ¬ (0 < count_documents db "product") := by
    simp [count_documents, h]
  refine ⟨(insert_one (insert_one (insert_one (insert_one db "product"
      sampleTrench).2 "product" sampleCrewneck).2 "product"
      sampleTrousers).2 "product" sampleDress).2, ?_, ?_, ?_⟩
  · simp only [seed_products]
    rw [if_neg hcnt]
    simp only [sampleProducts, List.foldl_cons, List.foldl_nil]
    norm_num
  · rw [getColl_insert_one, getColl_insert_one, getColl_insert_one,
      getColl_insert_one, h]
    simp only [List.nil_append, List.cons_append, List.append_nil,
      List.map_cons, List.map_nil, List.singleton_append]
    rw [assocGet_setId_title, assocGet_setId_price, assocGet_setId_featured,
      assocGet_setId_title, assocGet_setId_price, assocGet_setId_featured,
      assocGet_setId_title, assocGet_setId_price, assocGet_setId_featured,
      assocGet_setId_title, assocGet_setId_price, assocGet_setId_featured]
    rfl
  · rw [getColl_insert_one, getColl_insert_one, getColl_insert_one,
      getColl_insert_one, h]
    rfl

/-- C6 witness: seeding a concrete empty store. -/
theorem C6_seed_empty_inserts_four_witness :
    ∃ db', seed_products ⟨some ⟨[], 0, "shop", true, ""⟩, false, true⟩
        = (.ok [("inserted", .num 4)], ⟨some db', false, true⟩) ∧
      (getColl db' "product").map
          (fun d => (assocGet d "title", assocGet d "price",
                     assocGet d "featured"))
        = [(some (.str "Silk Trench Coat"), some (.num 1890),
              some (.bool true)),
           (some (.str "Cashmere Crewneck"), some (.num 690),
              some (.bool true)),
           (some (.str "Signature Tailored Trousers"), some (.num 520),
              some (.bool false)),
           (some (.str "Evening Silk Dress"), some (.num 2290),
              some (.bool true))] ∧
      (getColl db' "product").length = 4 :=
  C6_seed_empty_inserts_four ⟨[], 0, "shop", true, ""⟩ false true rfl

end Lapiozo
